import Mathlib

/-!
# Verification of `genfiles.py`

A shallow embedding of `src/genfiles.py` (a synthetic test-data generator)
together with proofs about its generation routines and statistics
aggregation.

Modelling conventions:

* Randomness (`random.randint`, `random.choice`, `os.urandom`) is modelled by
  an oracle stream of natural numbers consumed one value per primitive draw,
  in program order.  `randint a b` maps the drawn value into `[a, b]` by
  `a + v % (b + 1 - a)`; `choice xs` indexes `xs` by `v % xs.length`.
  Uniformity/independence of the drawn values is the contract of the Python
  primitives; theorems here prove range membership, attainability of every
  value in the range, and which draw each datum comes from.
* Filesystem writes are modelled by an oracle `String → Bool` mapping a file
  path to `true` exactly when `open`/`write` raises `IOError` for that path
  (the `except IOError` branches in the source).
* Printing to the console is modelled by returning the data that would be
  printed (records of computed numbers); Python float division is modelled
  by exact division in `ℚ`, which preserves the zero-guard structure that
  the claims are about.
-/

namespace Genfiles

/-- The oracle randomness source: an infinite stream of naturals and a cursor
marking the next unconsumed value. -/
structure Rng where
  stream : ℕ → ℕ
  pos : ℕ

/-- Consume one raw value from the source. -/
def Rng.next (r : Rng) : ℕ × Rng :=
  (r.stream r.pos, ⟨r.stream, r.pos + 1⟩)

/-- Python `random.randint(a, b)`: a draw mapped into `[a, b]` (both ends
included).  Call sites in `genfiles.py` guarantee `a ≤ b`. -/
def randint (a b : ℕ) (r : Rng) : ℕ × Rng :=
  let p := r.next
  (a + p.1 % (b + 1 - a), p.2)

/-- Python `random.choice(xs)` on a nonempty sequence: pick the element at a
drawn index reduced modulo the length. -/
def pyChoice {α : Type} (xs : List α) (h : xs ≠ []) (r : Rng) : α × Rng :=
  let p := r.next
  (xs.get ⟨p.1 % xs.length, Nat.mod_lt _ (List.length_pos.mpr h)⟩, p.2)

/-- Generate a list of `n` draws, threading the source left to right. -/
def genList {α : Type} (f : Rng → α × Rng) : ℕ → Rng → List α × Rng
  | 0, r => ([], r)
  | n + 1, r =>
    let p := f r
    let q := genList f n p.2
    (p.1 :: q.1, q.2)

/-- `os.urandom(n)`: `n` uniformly random bytes. -/
def urandom (n : ℕ) (r : Rng) : List ℕ × Rng :=
  genList (fun s => let p := s.next; (p.1 % 256, p.2)) n r

/-- `string.ascii_letters + string.digits + ' \n\t'` from line 25 of the
source: lowercase letters, uppercase letters, digits, space, newline, tab. -/
def characters : List Char :=
  "abcdefghijklmnopqrstuvwxyzABCDEFGHIJKLMNOPQRSTUVWXYZ0123456789 \n\t".toList

theorem characters_ne_nil : characters ≠ [] := by decide

/-- The byte values (code points) of the text alphabet. -/
def charactersBytes : List ℕ :=
  characters.map Char.toNat

/-- `str.encode('utf-8')` restricted to the ASCII characters that
`generate_random_data` actually produces (all members of `characters` are
below `U+0080`, so UTF-8 encodes each as the single byte of its code
point). -/
def encodeUtf8 (cs : List Char) : List ℕ :=
  cs.map Char.toNat

/-- `generate_random_data(size_bytes, is_binary)` (source lines 18-27):
binary mode returns `os.urandom(size_bytes)`; text mode draws `size_bytes`
characters from `characters` with `random.choice` and UTF-8 encodes the
resulting string. -/
def generate_random_data (size_bytes : ℕ) (is_binary : Bool) (r : Rng) :
    List ℕ × Rng :=
  if is_binary then
    urandom size_bytes r
  else
    let p := genList (pyChoice characters characters_ne_nil) size_bytes r
    (encodeUtf8 p.1, p.2)

/-- Python's `f"{i:03d}"`: decimal digits of `i`, left-padded with zeros to
width at least 3. -/
def pad3 (i : ℕ) : String :=
  let s := Nat.repr i
  String.mk (List.replicate (3 - s.length) '0') ++ s

/-- One successfully written file: its name, the size passed to the data
generator, the type flag, and the bytes written. -/
structure FileRec where
  name : String
  size : ℕ
  isBinary : Bool
  data : List ℕ
deriving DecidableEq

/-- The `stats` dictionary of `create_files_simple` (source lines 37-40). -/
structure SimpleStats where
  total_files : ℕ
  total_size_bytes : ℕ
deriving DecidableEq

/-- The `stats` dictionary of `create_structured_files`
(source lines 87-94). -/
structure StructuredStats where
  total_files : ℕ
  binary_files : ℕ
  text_files : ℕ
  total_size_bytes : ℕ
  binary_size_bytes : ℕ
  text_size_bytes : ℕ
deriving DecidableEq

/-- The all-zero accumulator both generators start from. -/
def emptyStructuredStats : StructuredStats :=
  ⟨0, 0, 0, 0, 0, 0⟩

/-- The per-file statistics update of `create_structured_files`
(source lines 136-143): bump the totals and exactly one of the
binary/text pairs. -/
def updateStructuredStats (s : StructuredStats) (size : ℕ) (isBin : Bool) :
    StructuredStats where
  total_files := s.total_files + 1
  binary_files := if isBin then s.binary_files + 1 else s.binary_files
  text_files := if isBin then s.text_files else s.text_files + 1
  total_size_bytes := s.total_size_bytes + size
  binary_size_bytes :=
    if isBin then s.binary_size_bytes + size else s.binary_size_bytes
  text_size_bytes :=
    if isBin then s.text_size_bytes else s.text_size_bytes + size

/-- The §3 invariant of `GenerationStats`: the totals split into the
binary and text sub-counters. -/
def statsInv (s : StructuredStats) : Prop :=
  s.total_files = s.binary_files + s.text_files ∧
  s.total_size_bytes = s.binary_size_bytes + s.text_size_bytes

instance (s : StructuredStats) : Decidable (statsInv s) := by
  unfold statsInv; infer_instance

/-- `f"fixed_file_{i:03d}.bin"` (source line 43). -/
def simpleFileName (i : ℕ) : String :=
  "fixed_file_" ++ pad3 i ++ ".bin"

/-- Result of one pass of the flat-mode loop body over a list of indices. -/
structure SimpleLoopOut where
  stats : SimpleStats
  files : List FileRec
  errors : List String
  rng : Rng

/-- The loop of `create_files_simple` (source lines 42-61) over the listed
indices: generate binary data of the fixed size, attempt the write, count
only successes, record the name of each failure and move on. -/
def simpleLoop (sizeB : ℕ) (root : String) (fsFail : String → Bool) :
    List ℕ → SimpleStats → Rng → SimpleLoopOut
  | [], stats, r => ⟨stats, [], [], r⟩
  | i :: is, stats, r =>
    let fileName := simpleFileName i
    let filePath := root ++ "/" ++ fileName
    let gen := generate_random_data sizeB true r
    if fsFail filePath then
      let rest := simpleLoop sizeB root fsFail is stats gen.2
      ⟨rest.stats, rest.files, fileName :: rest.errors, rest.rng⟩
    else
      let rest := simpleLoop sizeB root fsFail is
        ⟨stats.total_files + 1, stats.total_size_bytes + sizeB⟩ gen.2
      ⟨rest.stats, ⟨fileName, sizeB, true, gen.1⟩ :: rest.files,
        rest.errors, rest.rng⟩

/-- Result of `create_files_simple`: final statistics, files written,
names of failed writes.  (The consumed randomness source is dropped, as the
Python function returns only `stats`; files and errors record what reached
the filesystem and the console.) -/
structure SimpleResult where
  stats : SimpleStats
  files : List FileRec
  errors : List String

/-- `create_files_simple(root_dir, num_files, size_kb)`
(source lines 29-63). -/
def create_files_simple (root : String) (num_files size_kb : ℕ)
    (fsFail : String → Bool) (r : Rng) : SimpleResult :=
  let file_size_bytes := size_kb * 1024
  let out := simpleLoop file_size_bytes root fsFail
    (List.range' 1 num_files) ⟨0, 0⟩ r
  ⟨out.stats, out.files, out.errors⟩

/-- `f"subdir_{i:03d}"` (source line 98). -/
def subdirName (i : ℕ) : String :=
  "subdir_" ++ pad3 i

/-- `f"file_{j:03d}{extension}"` (source lines 119-120). -/
def structuredFileName (j : ℕ) (isBin : Bool) : String :=
  "file_" ++ pad3 j ++ (if isBin then ".bin" else ".txt")

/-- The `is_binary` resolution of `create_structured_files` (source lines
107-113): `'bin'` forces binary, `'txt'` forces text, and every other
string takes the `else` branch commented `# 'mix'`, an unbiased coin flip
via `random.choice([True, False])`. -/
def resolveFileType (file_type : String) (r : Rng) : Bool × Rng :=
  if file_type = "bin" then (true, r)
  else if file_type = "txt" then (false, r)
  else pyChoice [true, false] (by decide) r

/-- Result of the inner (per-file) loop of structured mode. -/
structure StructuredLoopOut where
  stats : StructuredStats
  files : List FileRec
  errors : List String
  rng : Rng

/-- The inner loop of `create_structured_files` (source lines 106-146) over
the listed file indices of one subdirectory: resolve the type, draw the
size, generate data, attempt the write; successes update the statistics,
failures record the file name and the loop continues. -/
def structuredFilesLoop (resolve : Rng → Bool × Rng) (minB maxB : ℕ)
    (subdirPath : String) (fsFail : String → Bool) :
    List ℕ → StructuredStats → Rng → StructuredLoopOut
  | [], stats, r => ⟨stats, [], [], r⟩
  | j :: js, stats, r =>
    let rb := resolve r
    let rs := randint minB maxB rb.2
    let fileName := structuredFileName j rb.1
    let filePath := subdirPath ++ "/" ++ fileName
    let gen := generate_random_data rs.1 rb.1 rs.2
    if fsFail filePath then
      let rest := structuredFilesLoop resolve minB maxB subdirPath fsFail
        js stats gen.2
      ⟨rest.stats, rest.files, fileName :: rest.errors, rest.rng⟩
    else
      let rest := structuredFilesLoop resolve minB maxB subdirPath fsFail
        js (updateStructuredStats stats rs.1 rb.1) gen.2
      ⟨rest.stats, ⟨fileName, rs.1, rb.1, gen.1⟩ :: rest.files,
        rest.errors, rest.rng⟩

/-- One created subdirectory: its name, the drawn file count (write
attempts), the files successfully written and the failed names. -/
structure SubdirRec where
  name : String
  numFiles : ℕ
  files : List FileRec
  errors : List String

/-- Result of the outer (per-subdirectory) loop of structured mode. -/
structure StructuredDirsOut where
  stats : StructuredStats
  subdirs : List SubdirRec
  rng : Rng

/-- The outer loop of `create_structured_files` (source lines 96-146) over
the listed subdirectory indices: create `subdir_XXX`, draw its file count
from `[1, M]`, and run the inner loop. -/
def structuredDirsLoop (resolve : Rng → Bool × Rng) (M minB maxB : ℕ)
    (root : String) (fsFail : String → Bool) :
    List ℕ → StructuredStats → Rng → StructuredDirsOut
  | [], stats, r => ⟨stats, [], r⟩
  | i :: is, stats, r =>
    let subdirPath := root ++ "/" ++ subdirName i
    let rn := randint 1 M r
    let inner := structuredFilesLoop resolve minB maxB subdirPath fsFail
      (List.range' 1 rn.1) stats rn.2
    let rest := structuredDirsLoop resolve M minB maxB root fsFail
      is inner.stats inner.rng
    ⟨rest.stats, ⟨subdirName i, rn.1, inner.files, inner.errors⟩ ::
      rest.subdirs, rest.rng⟩

/-- Result of `create_structured_files`: final statistics, the created
subdirectories, and whether the clamping warning of source line 83 was
printed. -/
structure StructuredResult where
  stats : StructuredStats
  subdirs : List SubdirRec
  clampWarning : Bool

/-- `create_structured_files(root_dir, N, M, K, file_type, min_size_bytes)`
(source lines 66-148): `max_size_bytes = K * 1024`; if the minimum exceeds
it, warn and clamp the minimum down to it; then run `N` subdirectories from
the all-zero statistics. -/
def create_structured_files (root : String) (N M K : ℕ) (file_type : String)
    (min_size_bytes : ℕ) (fsFail : String → Bool) (r : Rng) :
    StructuredResult :=
  let max_size_bytes := K * 1024
  let warn := decide (min_size_bytes > max_size_bytes)
  let minB := if min_size_bytes > max_size_bytes then max_size_bytes
    else min_size_bytes
  let out := structuredDirsLoop (resolveFileType file_type) M minB
    max_size_bytes root fsFail (List.range' 1 N) emptyStructuredStats r
  ⟨out.stats, out.subdirs, warn⟩

/-- The numbers computed and printed by `print_structured_statistics` on its
non-empty branch (source lines 159-186); sizes and averages in exact
rational arithmetic in place of Python floats. -/
structure StructuredSummary where
  totalFiles : ℕ
  totalSizeMB : ℚ
  binaryFiles : ℕ
  binarySizeMB : ℚ
  avgBinaryKB : ℚ
  textFiles : ℕ
  textSizeMB : ℚ
  avgTextKB : ℚ
  avgTotalKB : ℚ
deriving DecidableEq

/-- `print_structured_statistics(stats)` (source lines 151-186).  `none`
models the early-return branch that prints `"No files were generated."`
when `total_files == 0`; `some` carries the numbers of the full report.
Each average keeps the source's `if count > 0 else 0` guard. -/
def print_structured_statistics (s : StructuredStats) :
    Option StructuredSummary :=
  if s.total_files = 0 then none
  else some
    { totalFiles := s.total_files
      totalSizeMB := (s.total_size_bytes : ℚ) / (1024 * 1024)
      binaryFiles := s.binary_files
      binarySizeMB := (s.binary_size_bytes : ℚ) / (1024 * 1024)
      avgBinaryKB := if 0 < s.binary_files then
        (s.binary_size_bytes : ℚ) / s.binary_files / 1024 else 0
      textFiles := s.text_files
      textSizeMB := (s.text_size_bytes : ℚ) / (1024 * 1024)
      avgTextKB := if 0 < s.text_files then
        (s.text_size_bytes : ℚ) / s.text_files / 1024 else 0
      avgTotalKB := if 0 < s.total_files then
        (s.total_size_bytes : ℚ) / s.total_files / 1024 else 0 }

/-- The numbers computed and printed by `print_simple_statistics`
(source lines 189-200). -/
structure SimpleSummary where
  totalFiles : ℕ
  totalSizeMB : ℚ
  avgSizeMB : ℚ
deriving DecidableEq

/-- `print_simple_statistics(stats)` (source lines 189-200).  The source
has no `total_files == 0` early return: it always prints the full report,
with the average guarded to `0` when `total_files` is zero.  The `Option`
codomain matches `print_structured_statistics` so that "produces the
no-files report" is `= none` for either reporter; this function never
returns `none`. -/
def print_simple_statistics (s : SimpleStats) : Option SimpleSummary :=
  some
    { totalFiles := s.total_files
      totalSizeMB := (s.total_size_bytes : ℚ) / (1024 * 1024)
      avgSizeMB := if 0 < s.total_files then
        ((s.total_size_bytes : ℚ) / (1024 * 1024)) / s.total_files else 0 }

/-- The argparse result reaching the mode/validation logic of `main`
(source lines 287-330).  `type=int` fields may be negative, hence `Int`;
optional flags that may be absent are `Option`s.  (argparse itself —
rejection of non-integer text, the missing `-d`, `--help` — is CLI glue
below this model; `file_type` defaults to `"mix"` in the parser.) -/
structure ParsedArgs where
  directory : String
  file_create : Option (Int × Int)
  n : Option Int
  max_files : Option Int
  max_size_kb : Option Int
  file_type : Option String
  stat : Bool

/-- What `main` decides to do after validation: `parser.error` (which
prints usage and exits with a non-zero code before any generator runs), or
one of the two generation calls. -/
inductive MainAction where
  | usageError (msg : String)
  | runSimple (dir : String) (numFiles sizeKb : Int) (stat : Bool)
  | runStructured (dir : String) (n m k : Int) (fileType : String)
      (stat : Bool)
deriving DecidableEq

/-- The mode selection and validation of `main` (source lines 287-330):
`--file-create` present selects simple mode and checks its two integers
are positive; otherwise `-n`, `-m`, `-k` must all be present and each
positive, in that order of checks. -/
def mainValidate (a : ParsedArgs) : MainAction :=
  match a.file_create with
  | some (nFiles, mSizeKb) =>
    if nFiles ≤ 0 ∨ mSizeKb ≤ 0 then
      .usageError "For --file-create, both N and M must be greater than 0."
    else
      .runSimple a.directory nFiles mSizeKb a.stat
  | none =>
    match a.n, a.max_files, a.max_size_kb with
    | some n, some m, some k =>
      if n ≤ 0 then .usageError "-n must be an integer greater than 0."
      else if m ≤ 0 then
        .usageError "-m must be an integer greater than 0."
      else if k ≤ 0 then
        .usageError "-k must be an integer greater than 0."
      else .runStructured a.directory n m k (a.file_type.getD "mix") a.stat
    | _, _, _ =>
      .usageError "When --file-create is not used, -n, -m, and -k are required."

/-- The outcome of a full `main` run. -/
inductive MainOutcome where
  | usage (msg : String)
  | simpleDone (res : SimpleResult)
  | structuredDone (res : StructuredResult)

/-- `main` after argument parsing: validation, then the selected generator
(with the structured mode's `min_size_bytes` at its default `100`).
Validation precedes both `os.makedirs` calls and every file write, so a
`usageError` outcome reaches no generator. -/
def mainRun (a : ParsedArgs) (fsFail : String → Bool) (r : Rng) :
    MainOutcome :=
  match mainValidate a with
  | .usageError msg => .usage msg
  | .runSimple dir nFiles mSizeKb _ =>
    .simpleDone (create_files_simple dir nFiles.toNat mSizeKb.toNat fsFail r)
  | .runStructured dir n m k ft _ =>
    .structuredDone
      (create_structured_files dir n.toNat m.toNat k.toNat ft 100 fsFail r)

/-- Every path a `main` run wrote a file to (successful writes only);
usage errors write nothing. -/
def MainOutcome.filesWritten : MainOutcome → List String
  | .usage _ => []
  | .simpleDone res => res.files.map FileRec.name
  | .structuredDone res =>
    res.subdirs.flatMap fun sd => sd.files.map FileRec.name

/-- Every directory a `main` run created; usage errors create none. -/
def MainOutcome.dirsCreated : MainOutcome → List String
  | .usage _ => []
  | .simpleDone _ => []
  | .structuredDone res => res.subdirs.map SubdirRec.name

/-! ## Lemmas about the randomness primitives -/

lemma genList_length {α : Type} (f : Rng → α × Rng) :
    ∀ (n : ℕ) (r : Rng), ((genList f n r).1).length = n := by
  intro n
  induction n with
  | zero => intro r; simp [genList]
  | succ k ih => intro r; simp [genList, ih]

lemma genList_mem {α : Type} (f : Rng → α × Rng) (P : α → Prop)
    (hf : ∀ s : Rng, P (f s).1) :
    ∀ (n : ℕ) (r : Rng), ∀ x ∈ (genList f n r).1, P x := by
  intro n
  induction n with
  | zero => intro r x hx; simp [genList] at hx
  | succ k ih =>
    intro r x hx
    simp only [genList, List.mem_cons] at hx
    rcases hx with h | h
    · exact h ▸ hf r
    · exact ih _ x h

lemma pyChoice_mem {α : Type} (xs : List α) (h : xs ≠ []) (r : Rng) :
    (pyChoice xs h r).1 ∈ xs := by
  simp only [pyChoice]
  exact List.get_mem _ _ _

lemma randint_mem (a b : ℕ) (hab : a ≤ b) (r : Rng) :
    a ≤ (randint a b r).1 ∧ (randint a b r).1 ≤ b := by
  simp only [randint, Rng.next]
  have hpos : 0 < b + 1 - a := by omega
  have := Nat.mod_lt (r.stream r.pos) hpos
  omega

lemma randint_const (a : ℕ) (r : Rng) : (randint a a r).1 = a := by
  simp [randint, Nat.mod_one]

lemma randint_attains (a b c : ℕ) (h1 : a ≤ c) (h2 : c ≤ b) :
    ∃ r : Rng, (randint a b r).1 = c := by
  refine ⟨⟨fun _ => c - a, 0⟩, ?_⟩
  simp only [randint, Rng.next]
  have : (c - a) % (b + 1 - a) = c - a := Nat.mod_eq_of_lt (by omega)
  omega

/-! ## C1: `generate_random_data` returns exactly `size_bytes` bytes -/

/-- C1.  For every non-negative `size_bytes` and every `is_binary`,
`generate_random_data(size_bytes, is_binary)` returns a byte sequence of
exactly `size_bytes` length; in particular `size_bytes = 0` returns the
empty sequence. -/
theorem generate_random_data_length (size_bytes : ℕ) (is_binary : Bool)
    (r : Rng) :
    ((generate_random_data size_bytes is_binary r).1).length = size_bytes ∧
    (generate_random_data 0 is_binary r).1 = [] := by
  have hlen : ∀ (n : ℕ) (b : Bool) (s : Rng),
      ((generate_random_data n b s).1).length = n := by
    intro n b s
    cases b with
    | false =>
      simp [generate_random_data, encodeUtf8, genList_length]
    | true =>
      simp [generate_random_data, urandom, genList_length]
  refine ⟨hlen _ _ _, ?_⟩
  have := hlen 0 is_binary r
  exact List.length_eq_zero.mp this

/-! ## C5: text-mode output stays inside the fixed alphabet -/

lemma genList_eq_map_range {α : Type} (f : Rng → α × Rng)
    (hf : ∀ s : Rng, (f s).2 = ⟨s.stream, s.pos + 1⟩) :
    ∀ (n : ℕ) (r : Rng),
      (genList f n r).1 =
        (List.range n).map fun k => (f ⟨r.stream, r.pos + k⟩).1 := by
  intro n
  induction n with
  | zero => intro r; simp [genList]
  | succ m ih =>
    intro r
    rw [List.range_succ_eq_map]
    simp only [genList, List.map_cons, List.map_map]
    congr 1
    rw [hf r, ih]
    apply List.map_congr_left
    intro k _
    show (f ⟨r.stream, r.pos + 1 + k⟩).1 = (f ⟨r.stream, r.pos + (k + 1)⟩).1
    have hpos : r.pos + 1 + k = r.pos + (k + 1) := by omega
    rw [hpos]

lemma pyChoice_advance {α : Type} (xs : List α) (h : xs ≠ []) (s : Rng) :
    (pyChoice xs h s).2 = ⟨s.stream, s.pos + 1⟩ := rfl

lemma characters_length : characters.length = 65 := by decide

/-- Byte `k` of the text-mode output is determined by raw draw `k` alone:
the alphabet entry at that draw reduced modulo the 65-element alphabet
size.  (This is the shallow rendering of "each byte drawn independently
and uniformly": one fresh uniform draw per byte, mapped through a fixed
65-way index.) -/
lemma generate_text_byte (n : ℕ) (r : Rng) (k : ℕ) (hk : k < n) :
    ((generate_random_data n false r).1)[k]? =
      charactersBytes[r.stream (r.pos + k) % 65]? := by
  simp only [generate_random_data, Bool.false_eq_true, if_false, encodeUtf8]
  rw [genList_eq_map_range _ (pyChoice_advance characters characters_ne_nil)]
  rw [List.map_map, List.getElem?_map, List.getElem?_range hk,
    Option.map_some']
  have hidx : r.stream (r.pos + k) % 65 < characters.length := by
    rw [characters_length]; exact Nat.mod_lt _ (by norm_num)
  rw [show charactersBytes = characters.map Char.toNat from rfl,
    List.getElem?_map, List.getElem?_eq_getElem hidx, Option.map_some']
  simp only [Function.comp_apply, pyChoice, Rng.next, Option.some.injEq]
  rfl

/-- Counterexample to C5 as stated: the fixed alphabet implemented on
source line 25 (`string.ascii_letters + string.digits + ' \n\t'`) has 65
distinct symbols, not the 64 the claim repeats from the spec. -/
theorem characters_not_64 :
    charactersBytes.length = 65 ∧ charactersBytes.Nodup ∧
      ¬ charactersBytes.length = 64 := by decide

/-- C5 (amended: the alphabet has 65 symbols, not 64).  Every byte of the
text-mode output of `generate_random_data(size_bytes, false)` belongs to
the fixed alphabet `{A-Z, a-z, 0-9, space, newline, tab}` of 65 distinct
symbols, each byte is single-byte ASCII (below 128) with length preserved
by the encoding, and byte `k` is produced by the fresh uniform draw `k`
reduced modulo 65 (`generate_text_byte` restated). -/
theorem text_mode_alphabet (size_bytes : ℕ) (r : Rng) :
    (∀ byte ∈ (generate_random_data size_bytes false r).1,
      byte ∈ charactersBytes) ∧
    (∀ byte ∈ (generate_random_data size_bytes false r).1, byte < 128) ∧
    ((generate_random_data size_bytes false r).1).length = size_bytes ∧
    charactersBytes.length = 65 ∧ charactersBytes.Nodup ∧
    (∀ k < size_bytes, ((generate_random_data size_bytes false r).1)[k]? =
      charactersBytes[r.stream (r.pos + k) % 65]?) := by
  have hmem : ∀ byte ∈ (generate_random_data size_bytes false r).1,
      byte ∈ charactersBytes := by
    intro byte hb
    simp only [generate_random_data, Bool.false_eq_true, if_false,
      encodeUtf8, List.mem_map] at hb
    obtain ⟨c, hc, rfl⟩ := hb
    have : c ∈ characters :=
      genList_mem _ (· ∈ characters)
        (fun s => pyChoice_mem characters characters_ne_nil s) _ _ c hc
    exact List.mem_map_of_mem Char.toNat this
  refine ⟨hmem, ?_, (generate_random_data_length size_bytes false r).1,
    by decide, by decide, fun k hk => generate_text_byte size_bytes r k hk⟩
  intro byte hb
  have := hmem byte hb
  have hlt : ∀ b ∈ charactersBytes, b < 128 := by decide
  exact hlt byte this

/-- Witness for C5 (amended) on a concrete run: with the all-zero oracle
stream every draw picks alphabet entry 0, the letter `a` (byte 97), which
the theorem places in the alphabet and below 128. -/
theorem text_mode_alphabet_witness :
    (97 : ℕ) ∈ (generate_random_data 3 false ⟨fun _ => 0, 0⟩).1 ∧
    (97 : ℕ) ∈ charactersBytes ∧ (97 : ℕ) < 128 :=
  ⟨by decide,
    (text_mode_alphabet 3 ⟨fun _ => 0, 0⟩).1 97 (by decide),
    (text_mode_alphabet 3 ⟨fun _ => 0, 0⟩).2.1 97 (by decide)⟩

/-! ## Lemmas about the structured-mode loops -/

lemma updateStructuredStats_inv (s : StructuredStats) (size : ℕ)
    (isBin : Bool) (h : statsInv s) :
    statsInv (updateStructuredStats s size isBin) := by
  obtain ⟨h1, h2⟩ := h
  cases isBin <;> simp [statsInv, updateStructuredStats] <;> omega

lemma filesLoop_total_files (resolve : Rng → Bool × Rng) (minB maxB : ℕ)
    (path : String) (fsFail : String → Bool) :
    ∀ (js : List ℕ) (stats : StructuredStats) (r : Rng),
      (structuredFilesLoop resolve minB maxB path fsFail js stats
        r).stats.total_files =
      stats.total_files +
        (structuredFilesLoop resolve minB maxB path fsFail js stats
          r).files.length := by
  intro js
  induction js with
  | nil => intro stats r; simp [structuredFilesLoop]
  | cons j js ih =>
    intro stats r
    simp only [structuredFilesLoop]
    split
    · simp [ih]
    · simp only [List.length_cons, ih, updateStructuredStats]
      omega

lemma filesLoop_total_size (resolve : Rng → Bool × Rng) (minB maxB : ℕ)
    (path : String) (fsFail : String → Bool) :
    ∀ (js : List ℕ) (stats : StructuredStats) (r : Rng),
      (structuredFilesLoop resolve minB maxB path fsFail js stats
        r).stats.total_size_bytes =
      stats.total_size_bytes +
        (((structuredFilesLoop resolve minB maxB path fsFail js stats
          r).files.map FileRec.size).sum) := by
  intro js
  induction js with
  | nil => intro stats r; simp [structuredFilesLoop]
  | cons j js ih =>
    intro stats r
    simp only [structuredFilesLoop]
    split
    · simp [ih]
    · simp only [List.map_cons, List.sum_cons, ih, updateStructuredStats]
      omega

lemma filesLoop_binary_files (resolve : Rng → Bool × Rng) (minB maxB : ℕ)
    (path : String) (fsFail : String → Bool) :
    ∀ (js : List ℕ) (stats : StructuredStats) (r : Rng),
      (structuredFilesLoop resolve minB maxB path fsFail js stats
        r).stats.binary_files =
      stats.binary_files +
        ((structuredFilesLoop resolve minB maxB path fsFail js stats
          r).files.filter (fun f => f.isBinary)).length := by
  intro js
  induction js with
  | nil => intro stats r; simp [structuredFilesLoop]
  | cons j js ih =>
    intro stats r
    simp only [structuredFilesLoop]
    split
    · simp [ih]
    · rcases hbin : (resolve r).1 with _ | _ <;>
        simp [List.filter_cons, hbin, ih, updateStructuredStats] <;> omega

lemma filesLoop_binary_size (resolve : Rng → Bool × Rng) (minB maxB : ℕ)
    (path : String) (fsFail : String → Bool) :
    ∀ (js : List ℕ) (stats : StructuredStats) (r : Rng),
      (structuredFilesLoop resolve minB maxB path fsFail js stats
        r).stats.binary_size_bytes =
      stats.binary_size_bytes +
        ((((structuredFilesLoop resolve minB maxB path fsFail js stats
          r).files.filter (fun f => f.isBinary)).map FileRec.size).sum) := by
  intro js
  induction js with
  | nil => intro stats r; simp [structuredFilesLoop]
  | cons j js ih =>
    intro stats r
    simp only [structuredFilesLoop]
    split
    · simp [ih]
    · rcases hbin : (resolve r).1 with _ | _ <;>
        simp [List.filter_cons, hbin, ih, updateStructuredStats] <;> omega

lemma filesLoop_text_files (resolve : Rng → Bool × Rng) (minB maxB : ℕ)
    (path : String) (fsFail : String → Bool) :
    ∀ (js : List ℕ) (stats : StructuredStats) (r : Rng),
      (structuredFilesLoop resolve minB maxB path fsFail js stats
        r).stats.text_files =
      stats.text_files +
        ((structuredFilesLoop resolve minB maxB path fsFail js stats
          r).files.filter (fun f => !f.isBinary)).length := by
  intro js
  induction js with
  | nil => intro stats r; simp [structuredFilesLoop]
  | cons j js ih =>
    intro stats r
    simp only [structuredFilesLoop]
    split
    · simp [ih]
    · rcases hbin : (resolve r).1 with _ | _ <;>
        simp [List.filter_cons, hbin, ih, updateStructuredStats] <;> omega

lemma filesLoop_text_size (resolve : Rng → Bool × Rng) (minB maxB : ℕ)
    (path : String) (fsFail : String → Bool) :
    ∀ (js : List ℕ) (stats : StructuredStats) (r : Rng),
      (structuredFilesLoop resolve minB maxB path fsFail js stats
        r).stats.text_size_bytes =
      stats.text_size_bytes +
        ((((structuredFilesLoop resolve minB maxB path fsFail js stats
          r).files.filter (fun f => !f.isBinary)).map FileRec.size).sum) := by
  intro js
  induction js with
  | nil => intro stats r; simp [structuredFilesLoop]
  | cons j js ih =>
    intro stats r
    simp only [structuredFilesLoop]
    split
    · simp [ih]
    · rcases hbin : (resolve r).1 with _ | _ <;>
        simp [List.filter_cons, hbin, ih, updateStructuredStats] <;> omega

lemma filesLoop_attempts (resolve : Rng → Bool × Rng) (minB maxB : ℕ)
    (path : String) (fsFail : String → Bool) :
    ∀ (js : List ℕ) (stats : StructuredStats) (r : Rng),
      (structuredFilesLoop resolve minB maxB path fsFail js stats
        r).files.length +
      (structuredFilesLoop resolve minB maxB path fsFail js stats
        r).errors.length = js.length := by
  intro js
  induction js with
  | nil => intro stats r; simp [structuredFilesLoop]
  | cons j js ih =>
    intro stats r
    simp only [structuredFilesLoop]
    split
    · simp only [List.length_cons, ← Nat.add_assoc]
      exact congrArg (· + 1) (ih _ _)
    · simp only [List.length_cons, Nat.add_right_comm]
      exact congrArg (· + 1) (ih _ _)

lemma filesLoop_errors_mem (resolve : Rng → Bool × Rng) (minB maxB : ℕ)
    (path : String) (fsFail : String → Bool) :
    ∀ (js : List ℕ) (stats : StructuredStats) (r : Rng),
      ∀ e ∈ (structuredFilesLoop resolve minB maxB path fsFail js stats
        r).errors,
        ∃ j ∈ js, e = structuredFileName j true ∨
          e = structuredFileName j false := by
  intro js
  induction js with
  | nil => intro stats r e he; simp [structuredFilesLoop] at he
  | cons j js ih =>
    intro stats r e he
    simp only [structuredFilesLoop] at he
    split at he
    · rcases List.mem_cons.mp he with h | h
      · refine ⟨j, List.mem_cons_self .., ?_⟩
        cases hb : (resolve r).1
        · rw [hb] at h; exact Or.inr h
        · rw [hb] at h; exact Or.inl h
      · obtain ⟨j', hj', hj'e⟩ := ih _ _ e h
        exact ⟨j', List.mem_cons_of_mem _ hj', hj'e⟩
    · obtain ⟨j', hj', hj'e⟩ := ih _ _ e he
      exact ⟨j', List.mem_cons_of_mem _ hj', hj'e⟩

lemma filesLoop_files_mem (resolve : Rng → Bool × Rng) (minB maxB : ℕ)
    (path : String) (fsFail : String → Bool) (hle : minB ≤ maxB) :
    ∀ (js : List ℕ) (stats : StructuredStats) (r : Rng),
      ∀ f ∈ (structuredFilesLoop resolve minB maxB path fsFail js stats
        r).files,
        minB ≤ f.size ∧ f.size ≤ maxB ∧ f.data.length = f.size := by
  intro js
  induction js with
  | nil => intro stats r f hf; simp [structuredFilesLoop] at hf
  | cons j js ih =>
    intro stats r f hf
    simp only [structuredFilesLoop] at hf
    split at hf
    · exact ih _ _ f hf
    · rcases List.mem_cons.mp hf with h | h
      · subst h
        refine ⟨(randint_mem minB maxB hle _).1,
          (randint_mem minB maxB hle _).2, ?_⟩
        exact (generate_random_data_length _ _ _).1
      · exact ih _ _ f h

lemma filesLoop_inv (resolve : Rng → Bool × Rng) (minB maxB : ℕ)
    (path : String) (fsFail : String → Bool) :
    ∀ (js : List ℕ) (stats : StructuredStats) (r : Rng), statsInv stats →
      statsInv (structuredFilesLoop resolve minB maxB path fsFail js stats
        r).stats := by
  intro js
  induction js with
  | nil => intro stats r h; simpa [structuredFilesLoop] using h
  | cons j js ih =>
    intro stats r h
    simp only [structuredFilesLoop]
    split
    · exact ih _ _ h
    · exact ih _ _ (updateStructuredStats_inv _ _ _ h)

lemma dirsLoop_subdirs_names (resolve : Rng → Bool × Rng) (M minB maxB : ℕ)
    (root : String) (fsFail : String → Bool) :
    ∀ (is : List ℕ) (stats : StructuredStats) (r : Rng),
      (structuredDirsLoop resolve M minB maxB root fsFail is stats
        r).subdirs.map SubdirRec.name = is.map subdirName := by
  intro is
  induction is with
  | nil => intro stats r; simp [structuredDirsLoop]
  | cons i is ih =>
    intro stats r
    simp only [structuredDirsLoop, List.map_cons]
    rw [ih]

lemma dirsLoop_subdirs_length (resolve : Rng → Bool × Rng)
    (M minB maxB : ℕ) (root : String) (fsFail : String → Bool)
    (is : List ℕ) (stats : StructuredStats) (r : Rng) :
    (structuredDirsLoop resolve M minB maxB root fsFail is stats
      r).subdirs.length = is.length := by
  have h := dirsLoop_subdirs_names resolve M minB maxB root fsFail is stats r
  have := congrArg List.length h
  simpa using this

lemma dirsLoop_inv (resolve : Rng → Bool × Rng) (M minB maxB : ℕ)
    (root : String) (fsFail : String → Bool) :
    ∀ (is : List ℕ) (stats : StructuredStats) (r : Rng), statsInv stats →
      statsInv (structuredDirsLoop resolve M minB maxB root fsFail is stats
        r).stats := by
  intro is
  induction is with
  | nil => intro stats r h; simpa [structuredDirsLoop] using h
  | cons i is ih =>
    intro stats r h
    simp only [structuredDirsLoop]
    exact ih _ _ (filesLoop_inv _ _ _ _ _ _ _ _ h)

lemma dirsLoop_numFiles (resolve : Rng → Bool × Rng) (M minB maxB : ℕ)
    (root : String) (fsFail : String → Bool) (hM : 1 ≤ M) :
    ∀ (is : List ℕ) (stats : StructuredStats) (r : Rng),
      ∀ sd ∈ (structuredDirsLoop resolve M minB maxB root fsFail is stats
        r).subdirs, 1 ≤ sd.numFiles ∧ sd.numFiles ≤ M := by
  intro is
  induction is with
  | nil => intro stats r sd hsd; simp [structuredDirsLoop] at hsd
  | cons i is ih =>
    intro stats r sd hsd
    simp only [structuredDirsLoop] at hsd
    rcases List.mem_cons.mp hsd with h | h
    · subst h
      exact randint_mem 1 M hM r
    · exact ih _ _ sd h

lemma dirsLoop_files (resolve : Rng → Bool × Rng) (M minB maxB : ℕ)
    (root : String) (fsFail : String → Bool) (hle : minB ≤ maxB) :
    ∀ (is : List ℕ) (stats : StructuredStats) (r : Rng),
      ∀ sd ∈ (structuredDirsLoop resolve M minB maxB root fsFail is stats
        r).subdirs, ∀ f ∈ sd.files,
          minB ≤ f.size ∧ f.size ≤ maxB ∧ f.data.length = f.size := by
  intro is
  induction is with
  | nil => intro stats r sd hsd; simp [structuredDirsLoop] at hsd
  | cons i is ih =>
    intro stats r sd hsd
    simp only [structuredDirsLoop] at hsd
    rcases List.mem_cons.mp hsd with h | h
    · subst h
      intro f hf
      exact filesLoop_files_mem resolve minB maxB _ fsFail hle _ _ _ f hf
    · exact ih _ _ sd h

lemma dirsLoop_attempts (resolve : Rng → Bool × Rng) (M minB maxB : ℕ)
    (root : String) (fsFail : String → Bool) :
    ∀ (is : List ℕ) (stats : StructuredStats) (r : Rng),
      ∀ sd ∈ (structuredDirsLoop resolve M minB maxB root fsFail is stats
        r).subdirs, sd.files.length + sd.errors.length = sd.numFiles := by
  intro is
  induction is with
  | nil => intro stats r sd hsd; simp [structuredDirsLoop] at hsd
  | cons i is ih =>
    intro stats r sd hsd
    simp only [structuredDirsLoop] at hsd
    rcases List.mem_cons.mp hsd with h | h
    · subst h
      have := filesLoop_attempts resolve minB maxB
        (root ++ "/" ++ subdirName i) fsFail
        (List.range' 1 (randint 1 M r).1) stats (randint 1 M r).2
      simpa using this
    · exact ih _ _ sd h

lemma dirsLoop_errors (resolve : Rng → Bool × Rng) (M minB maxB : ℕ)
    (root : String) (fsFail : String → Bool) :
    ∀ (is : List ℕ) (stats : StructuredStats) (r : Rng),
      ∀ sd ∈ (structuredDirsLoop resolve M minB maxB root fsFail is stats
        r).subdirs, ∀ e ∈ sd.errors,
          ∃ j ∈ List.range' 1 sd.numFiles,
            e = structuredFileName j true ∨
              e = structuredFileName j false := by
  intro is
  induction is with
  | nil => intro stats r sd hsd; simp [structuredDirsLoop] at hsd
  | cons i is ih =>
    intro stats r sd hsd
    simp only [structuredDirsLoop] at hsd
    rcases List.mem_cons.mp hsd with h | h
    · subst h
      intro e he
      exact filesLoop_errors_mem resolve minB maxB _ fsFail _ _ _ e he
    · exact ih _ _ sd h

lemma dirsLoop_total_files (resolve : Rng → Bool × Rng) (M minB maxB : ℕ)
    (root : String) (fsFail : String → Bool) :
    ∀ (is : List ℕ) (stats : StructuredStats) (r : Rng),
      (structuredDirsLoop resolve M minB maxB root fsFail is stats
        r).stats.total_files =
      stats.total_files +
        (((structuredDirsLoop resolve M minB maxB root fsFail is stats
          r).subdirs.map fun sd => sd.files.length).sum) := by
  intro is
  induction is with
  | nil => intro stats r; simp [structuredDirsLoop]
  | cons i is ih =>
    intro stats r
    simp only [structuredDirsLoop, List.map_cons, List.sum_cons]
    rw [ih, filesLoop_total_files]
    omega

lemma dirsLoop_total_size (resolve : Rng → Bool × Rng) (M minB maxB : ℕ)
    (root : String) (fsFail : String → Bool) :
    ∀ (is : List ℕ) (stats : StructuredStats) (r : Rng),
      (structuredDirsLoop resolve M minB maxB root fsFail is stats
        r).stats.total_size_bytes =
      stats.total_size_bytes +
        (((structuredDirsLoop resolve M minB maxB root fsFail is stats
          r).subdirs.map fun sd => (sd.files.map FileRec.size).sum).sum) := by
  intro is
  induction is with
  | nil => intro stats r; simp [structuredDirsLoop]
  | cons i is ih =>
    intro stats r
    simp only [structuredDirsLoop, List.map_cons, List.sum_cons]
    rw [ih, filesLoop_total_size]
    omega

lemma dirsLoop_binary_files (resolve : Rng → Bool × Rng) (M minB maxB : ℕ)
    (root : String) (fsFail : String → Bool) :
    ∀ (is : List ℕ) (stats : StructuredStats) (r : Rng),
      (structuredDirsLoop resolve M minB maxB root fsFail is stats
        r).stats.binary_files =
      stats.binary_files +
        (((structuredDirsLoop resolve M minB maxB root fsFail is stats
          r).subdirs.map fun sd =>
            (sd.files.filter fun f => f.isBinary).length).sum) := by
  intro is
  induction is with
  | nil => intro stats r; simp [structuredDirsLoop]
  | cons i is ih =>
    intro stats r
    simp only [structuredDirsLoop, List.map_cons, List.sum_cons]
    rw [ih, filesLoop_binary_files]
    omega

lemma dirsLoop_binary_size (resolve : Rng → Bool × Rng) (M minB maxB : ℕ)
    (root : String) (fsFail : String → Bool) :
    ∀ (is : List ℕ) (stats : StructuredStats) (r : Rng),
      (structuredDirsLoop resolve M minB maxB root fsFail is stats
        r).stats.binary_size_bytes =
      stats.binary_size_bytes +
        (((structuredDirsLoop resolve M minB maxB root fsFail is stats
          r).subdirs.map fun sd =>
            ((sd.files.filter fun f => f.isBinary).map
              FileRec.size).sum).sum) := by
  intro is
  induction is with
  | nil => intro stats r; simp [structuredDirsLoop]
  | cons i is ih =>
    intro stats r
    simp only [structuredDirsLoop, List.map_cons, List.sum_cons]
    rw [ih, filesLoop_binary_size]
    omega

lemma dirsLoop_text_files (resolve : Rng → Bool × Rng) (M minB maxB : ℕ)
    (root : String) (fsFail : String → Bool) :
    ∀ (is : List ℕ) (stats : StructuredStats) (r : Rng),
      (structuredDirsLoop resolve M minB maxB root fsFail is stats
        r).stats.text_files =
      stats.text_files +
        (((structuredDirsLoop resolve M minB maxB root fsFail is stats
          r).subdirs.map fun sd =>
            (sd.files.filter fun f => !f.isBinary).length).sum) := by
  intro is
  induction is with
  | nil => intro stats r; simp [structuredDirsLoop]
  | cons i is ih =>
    intro stats r
    simp only [structuredDirsLoop, List.map_cons, List.sum_cons]
    rw [ih, filesLoop_text_files]
    omega

lemma dirsLoop_text_size (resolve : Rng → Bool × Rng) (M minB maxB : ℕ)
    (root : String) (fsFail : String → Bool) :
    ∀ (is : List ℕ) (stats : StructuredStats) (r : Rng),
      (structuredDirsLoop resolve M minB maxB root fsFail is stats
        r).stats.text_size_bytes =
      stats.text_size_bytes +
        (((structuredDirsLoop resolve M minB maxB root fsFail is stats
          r).subdirs.map fun sd =>
            ((sd.files.filter fun f => !f.isBinary).map
              FileRec.size).sum).sum) := by
  intro is
  induction is with
  | nil => intro stats r; simp [structuredDirsLoop]
  | cons i is ih =>
    intro stats r
    simp only [structuredDirsLoop, List.map_cons, List.sum_cons]
    rw [ih, filesLoop_text_size]
    omega

/-! ## Lemmas about the flat-mode loop -/

lemma simpleLoop_total_files (sizeB : ℕ) (root : String)
    (fsFail : String → Bool) :
    ∀ (is : List ℕ) (stats : SimpleStats) (r : Rng),
      (simpleLoop sizeB root fsFail is stats r).stats.total_files =
        stats.total_files +
          (simpleLoop sizeB root fsFail is stats r).files.length := by
  intro is
  induction is with
  | nil => intro stats r; simp [simpleLoop]
  | cons i is ih =>
    intro stats r
    simp only [simpleLoop]
    split
    · simp [ih]
    · simp only [List.length_cons, ih]
      omega

lemma simpleLoop_total_size (sizeB : ℕ) (root : String)
    (fsFail : String → Bool) :
    ∀ (is : List ℕ) (stats : SimpleStats) (r : Rng),
      (simpleLoop sizeB root fsFail is stats r).stats.total_size_bytes =
        stats.total_size_bytes +
          (simpleLoop sizeB root fsFail is stats r).files.length * sizeB := by
  intro is
  induction is with
  | nil => intro stats r; simp [simpleLoop]
  | cons i is ih =>
    intro stats r
    simp only [simpleLoop]
    split
    · simp [ih]
    · simp only [List.length_cons, ih, Nat.add_mul, Nat.one_mul]
      omega

lemma simpleLoop_attempts (sizeB : ℕ) (root : String)
    (fsFail : String → Bool) :
    ∀ (is : List ℕ) (stats : SimpleStats) (r : Rng),
      (simpleLoop sizeB root fsFail is stats r).files.length +
        (simpleLoop sizeB root fsFail is stats r).errors.length =
      is.length := by
  intro is
  induction is with
  | nil => intro stats r; simp [simpleLoop]
  | cons i is ih =>
    intro stats r
    simp only [simpleLoop]
    split
    · simp only [List.length_cons, ← Nat.add_assoc]
      exact congrArg (· + 1) (ih _ _)
    · simp only [List.length_cons]
      rw [Nat.add_right_comm]
      exact congrArg (· + 1) (ih _ _)

lemma simpleLoop_errors (sizeB : ℕ) (root : String)
    (fsFail : String → Bool) :
    ∀ (is : List ℕ) (stats : SimpleStats) (r : Rng),
      (simpleLoop sizeB root fsFail is stats r).errors =
        (is.filter fun i =>
          fsFail (root ++ "/" ++ simpleFileName i)).map simpleFileName := by
  intro is
  induction is with
  | nil => intro stats r; simp [simpleLoop]
  | cons i is ih =>
    intro stats r
    simp only [simpleLoop, List.filter_cons]
    split
    · next h => simp only [h, if_true, List.map_cons, ih]
    · next h =>
      simp only [Bool.not_eq_true] at h
      simp only [h, Bool.false_eq_true, if_false, ih]

lemma simpleLoop_files_mem (sizeB : ℕ) (root : String)
    (fsFail : String → Bool) :
    ∀ (is : List ℕ) (stats : SimpleStats) (r : Rng),
      ∀ f ∈ (simpleLoop sizeB root fsFail is stats r).files,
        f.isBinary = true ∧ f.size = sizeB ∧ f.data.length = sizeB := by
  intro is
  induction is with
  | nil => intro stats r f hf; simp [simpleLoop] at hf
  | cons i is ih =>
    intro stats r f hf
    simp only [simpleLoop] at hf
    split at hf
    · exact ih _ _ f hf
    · rcases List.mem_cons.mp hf with h | h
      · subst h
        exact ⟨rfl, rfl, (generate_random_data_length _ _ _).1⟩
      · exact ih _ _ f h

/-! ## C2: the `GenerationStats` invariant in structured mode -/

/-- C2.  The structured-mode accumulator starts as the all-zero record;
the per-file update preserves `total_files = binary_files + text_files`
and `total_size_bytes = binary_size_bytes + text_size_bytes` (so the
invariant holds after every per-file update reached from the empty start);
each successful write adds one to `total_files`, adds the file size to
`total_size_bytes`, and bumps exactly one of the binary/text sub-counter
pairs; no counter is ever decremented; and the statistics returned by
`create_structured_files` satisfy the invariant. -/
theorem structured_stats_invariant :
    (statsInv emptyStructuredStats ∧
      emptyStructuredStats = ⟨0, 0, 0, 0, 0, 0⟩) ∧
    (∀ (s : StructuredStats) (size : ℕ) (isBin : Bool), statsInv s →
      statsInv (updateStructuredStats s size isBin)) ∧
    (∀ (s : StructuredStats) (size : ℕ) (isBin : Bool),
      (updateStructuredStats s size isBin).total_files =
        s.total_files + 1 ∧
      (updateStructuredStats s size isBin).total_size_bytes =
        s.total_size_bytes + size ∧
      (updateStructuredStats s size true).binary_files =
        s.binary_files + 1 ∧
      (updateStructuredStats s size true).text_files = s.text_files ∧
      (updateStructuredStats s size true).binary_size_bytes =
        s.binary_size_bytes + size ∧
      (updateStructuredStats s size true).text_size_bytes =
        s.text_size_bytes ∧
      (updateStructuredStats s size false).text_files = s.text_files + 1 ∧
      (updateStructuredStats s size false).binary_files = s.binary_files ∧
      (updateStructuredStats s size false).text_size_bytes =
        s.text_size_bytes + size ∧
      (updateStructuredStats s size false).binary_size_bytes =
        s.binary_size_bytes) ∧
    (∀ (s : StructuredStats) (size : ℕ) (isBin : Bool),
      s.total_files ≤ (updateStructuredStats s size isBin).total_files ∧
      s.binary_files ≤ (updateStructuredStats s size isBin).binary_files ∧
      s.text_files ≤ (updateStructuredStats s size isBin).text_files ∧
      s.total_size_bytes ≤
        (updateStructuredStats s size isBin).total_size_bytes ∧
      s.binary_size_bytes ≤
        (updateStructuredStats s size isBin).binary_size_bytes ∧
      s.text_size_bytes ≤
        (updateStructuredStats s size isBin).text_size_bytes) ∧
    (∀ (root : String) (N M K : ℕ) (ft : String) (minSz : ℕ)
      (fsFail : String → Bool) (r : Rng),
      statsInv (create_structured_files root N M K ft minSz fsFail
        r).stats) := by
  refine ⟨⟨by decide, rfl⟩, updateStructuredStats_inv, ?_, ?_, ?_⟩
  · intro s size isBin
    cases isBin <;> simp [updateStructuredStats]
  · intro s size isBin
    cases isBin <;> simp [updateStructuredStats]
  · intro root N M K ft minSz fsFail r
    simp only [create_structured_files]
    exact dirsLoop_inv _ _ _ _ _ _ _ _ _ (by decide)

/-- Witness for C2 at a concrete accumulator and update. -/
theorem structured_stats_invariant_witness :
    statsInv (updateStructuredStats ⟨2, 1, 1, 300, 100, 200⟩ 50 true) :=
  structured_stats_invariant.2.1 ⟨2, 1, 1, 300, 100, 200⟩ 50 true (by decide)

/-! ## C3: clamping of `min_size_bytes` -/

/-- C3.  When `min_size_bytes > K * 1024`, `create_structured_files` does
not fail: it emits the clamping diagnostic and every generated file has
size exactly `K * 1024` (both the drawn size and the length of the data
written); and whenever `min_size_bytes = K * 1024` (the minimum equals the
maximum), every file has that exact fixed size. -/
theorem min_size_clamped (root ft : String) (N M K minSz : ℕ)
    (fsFail : String → Bool) (r : Rng) :
    (minSz > K * 1024 →
      (create_structured_files root N M K ft minSz fsFail
        r).clampWarning = true ∧
      ∀ sd ∈ (create_structured_files root N M K ft minSz fsFail
        r).subdirs, ∀ f ∈ sd.files,
          f.size = K * 1024 ∧ f.data.length = K * 1024) ∧
    (minSz = K * 1024 →
      ∀ sd ∈ (create_structured_files root N M K ft minSz fsFail
        r).subdirs, ∀ f ∈ sd.files,
          f.size = minSz ∧ f.data.length = minSz) := by
  constructor
  · intro h
    constructor
    · simp [create_structured_files, h]
    · intro sd hsd f hf
      simp only [create_structured_files, if_pos h] at hsd
      have := dirsLoop_files (resolveFileType ft) M (K * 1024) (K * 1024)
        root fsFail le_rfl _ _ _ sd hsd f hf
      omega
  · intro h
    intro sd hsd f hf
    have hnot : ¬ (minSz > K * 1024) := by omega
    simp only [create_structured_files, if_neg hnot] at hsd
    have := dirsLoop_files (resolveFileType ft) M minSz (K * 1024)
      root fsFail (by omega) _ _ _ sd hsd f hf
    omega

/-- Witness for C3: `min = 5000`, `K = 1` (the spec's own example), so the
minimum is clamped to `1024` and a generated file has size exactly
`1024`. -/
theorem min_size_clamped_witness :
    (create_structured_files "testdir" 1 1 1 "bin" 5000 (fun _ => false)
      ⟨fun _ => 0, 0⟩).clampWarning = true ∧
    ∀ sd ∈ (create_structured_files "testdir" 1 1 1 "bin" 5000
      (fun _ => false) ⟨fun _ => 0, 0⟩).subdirs, ∀ f ∈ sd.files,
        f.size = 1 * 1024 ∧ f.data.length = 1 * 1024 :=
  (min_size_clamped "testdir" "bin" 1 1 1 5000 (fun _ => false)
    ⟨fun _ => 0, 0⟩).1 (by norm_num)

/-! ## C4: per-file I/O errors are non-fatal and excluded from statistics -/

/-- C4.  For every write-failure oracle, in flat mode: the statistics count
exactly the successfully written files (`total_files` is the success count
and `total_size_bytes` accumulates only successes), every index of the
batch is attempted (successes plus reported failures equal `num_files`, so
no failure aborts the batch), and the reported failure names are exactly
the file names of the failing paths, in order.  In structured mode: all
`N` subdirectories are processed, within each subdirectory successes plus
reported failures equal the drawn file count (failures abort neither
loop), each reported failure is the name of an attempted file, and every
one of the six returned counters is a function of the successfully written
files alone. -/
theorem per_file_errors_nonfatal (root : String) (num size_kb : ℕ)
    (N M K minSz : ℕ) (ft : String) (fsFail : String → Bool) (r : Rng) :
    ((create_files_simple root num size_kb fsFail r).stats.total_files =
      (create_files_simple root num size_kb fsFail r).files.length ∧
     (create_files_simple root num size_kb fsFail
       r).stats.total_size_bytes =
      (create_files_simple root num size_kb fsFail r).files.length *
        (size_kb * 1024) ∧
     (create_files_simple root num size_kb fsFail r).files.length +
      (create_files_simple root num size_kb fsFail r).errors.length =
        num ∧
     (create_files_simple root num size_kb fsFail r).errors =
      ((List.range' 1 num).filter fun i =>
        fsFail (root ++ "/" ++ simpleFileName i)).map simpleFileName) ∧
    ((create_structured_files root N M K ft minSz fsFail
       r).subdirs.length = N ∧
     (∀ sd ∈ (create_structured_files root N M K ft minSz fsFail
       r).subdirs, sd.files.length + sd.errors.length = sd.numFiles) ∧
     (∀ sd ∈ (create_structured_files root N M K ft minSz fsFail
       r).subdirs, ∀ e ∈ sd.errors, ∃ j ∈ List.range' 1 sd.numFiles,
         e = structuredFileName j true ∨ e = structuredFileName j false) ∧
     (create_structured_files root N M K ft minSz fsFail
       r).stats.total_files =
      ((create_structured_files root N M K ft minSz fsFail
        r).subdirs.map fun sd => sd.files.length).sum ∧
     (create_structured_files root N M K ft minSz fsFail
       r).stats.total_size_bytes =
      ((create_structured_files root N M K ft minSz fsFail
        r).subdirs.map fun sd => (sd.files.map FileRec.size).sum).sum ∧
     (create_structured_files root N M K ft minSz fsFail
       r).stats.binary_files =
      ((create_structured_files root N M K ft minSz fsFail
        r).subdirs.map fun sd =>
          (sd.files.filter fun f => f.isBinary).length).sum ∧
     (create_structured_files root N M K ft minSz fsFail
       r).stats.binary_size_bytes =
      ((create_structured_files root N M K ft minSz fsFail
        r).subdirs.map fun sd =>
          ((sd.files.filter fun f => f.isBinary).map FileRec.size).sum).sum ∧
     (create_structured_files root N M K ft minSz fsFail
       r).stats.text_files =
      ((create_structured_files root N M K ft minSz fsFail
        r).subdirs.map fun sd =>
          (sd.files.filter fun f => !f.isBinary).length).sum ∧
     (create_structured_files root N M K ft minSz fsFail
       r).stats.text_size_bytes =
      ((create_structured_files root N M K ft minSz fsFail
        r).subdirs.map fun sd =>
          ((sd.files.filter fun f => !f.isBinary).map
            FileRec.size).sum).sum) := by
  constructor
  · refine ⟨?_, ?_, ?_, ?_⟩
    · simpa [create_files_simple] using
        simpleLoop_total_files (size_kb * 1024) root fsFail
          (List.range' 1 num) ⟨0, 0⟩ r
    · simpa [create_files_simple] using
        simpleLoop_total_size (size_kb * 1024) root fsFail
          (List.range' 1 num) ⟨0, 0⟩ r
    · simpa [create_files_simple] using
        simpleLoop_attempts (size_kb * 1024) root fsFail
          (List.range' 1 num) ⟨0, 0⟩ r
    · simpa [create_files_simple] using
        simpleLoop_errors (size_kb * 1024) root fsFail
          (List.range' 1 num) ⟨0, 0⟩ r
  · refine ⟨?_, ?_, ?_, ?_, ?_, ?_, ?_, ?_, ?_⟩
    · simpa [create_structured_files] using
        dirsLoop_subdirs_length (resolveFileType ft) M _ (K * 1024) root
          fsFail (List.range' 1 N) emptyStructuredStats r
    · simp only [create_structured_files]
      exact dirsLoop_attempts _ _ _ _ _ _ _ _ _
    · simp only [create_structured_files]
      exact dirsLoop_errors _ _ _ _ _ _ _ _ _
    · simpa [create_structured_files, emptyStructuredStats] using
        dirsLoop_total_files (resolveFileType ft) M _ (K * 1024) root
          fsFail (List.range' 1 N) emptyStructuredStats r
    · simpa [create_structured_files, emptyStructuredStats] using
        dirsLoop_total_size (resolveFileType ft) M _ (K * 1024) root
          fsFail (List.range' 1 N) emptyStructuredStats r
    · simpa [create_structured_files, emptyStructuredStats] using
        dirsLoop_binary_files (resolveFileType ft) M _ (K * 1024) root
          fsFail (List.range' 1 N) emptyStructuredStats r
    · simpa [create_structured_files, emptyStructuredStats] using
        dirsLoop_binary_size (resolveFileType ft) M _ (K * 1024) root
          fsFail (List.range' 1 N) emptyStructuredStats r
    · simpa [create_structured_files, emptyStructuredStats] using
        dirsLoop_text_files (resolveFileType ft) M _ (K * 1024) root
          fsFail (List.range' 1 N) emptyStructuredStats r
    · simpa [create_structured_files, emptyStructuredStats] using
        dirsLoop_text_size (resolveFileType ft) M _ (K * 1024) root
          fsFail (List.range' 1 N) emptyStructuredStats r

/-! ## C6: flat-mode statistics -/

/-- C6.  For positive `num_files` and `size_kb`, the flat-mode statistics
satisfy `total_files` = number of files successfully written and
`total_size_bytes = total_files * size_kb * 1024`; every generated file is
binary and has exactly `size_kb * 1024` bytes; and with no write failures
all `num_files` files are written (so `num_files = 5`, `size_kb = 10`
yields `total_files = 5` and `total_size_bytes = 51200`, as in the
witness). -/
theorem create_files_simple_stats (root : String) (num size_kb : ℕ)
    (fsFail : String → Bool) (r : Rng) (hnum : 0 < num)
    (hsize : 0 < size_kb) :
    (create_files_simple root num size_kb fsFail r).stats.total_files =
      (create_files_simple root num size_kb fsFail r).files.length ∧
    (create_files_simple root num size_kb fsFail r).stats.total_size_bytes
      = (create_files_simple root num size_kb fsFail
          r).stats.total_files * (size_kb * 1024) ∧
    (∀ f ∈ (create_files_simple root num size_kb fsFail r).files,
      f.isBinary = true ∧ f.size = size_kb * 1024 ∧
        f.data.length = size_kb * 1024) ∧
    ((∀ p, fsFail p = false) →
      (create_files_simple root num size_kb fsFail r).stats.total_files =
        num ∧
      (create_files_simple root num size_kb fsFail
        r).stats.total_size_bytes = num * (size_kb * 1024)) := by
  have h1 := simpleLoop_total_files (size_kb * 1024) root fsFail
    (List.range' 1 num) ⟨0, 0⟩ r
  have h2 := simpleLoop_total_size (size_kb * 1024) root fsFail
    (List.range' 1 num) ⟨0, 0⟩ r
  have h3 := simpleLoop_attempts (size_kb * 1024) root fsFail
    (List.range' 1 num) ⟨0, 0⟩ r
  have h4 := simpleLoop_errors (size_kb * 1024) root fsFail
    (List.range' 1 num) ⟨0, 0⟩ r
  simp only [create_files_simple]
  refine ⟨by simpa using h1, ?_, ?_, ?_⟩
  · rw [h2, h1]
    simp
  · intro f hf
    exact simpleLoop_files_mem _ _ _ _ _ _ f hf
  · intro hall
    have hfilter : ((List.range' 1 num).filter fun i =>
        fsFail (root ++ "/" ++ simpleFileName i)) = [] := by
      apply List.filter_eq_nil.mpr
      intro a _
      simp [hall]
    have herr : (simpleLoop (size_kb * 1024) root fsFail
        (List.range' 1 num) ⟨0, 0⟩ r).errors = [] := by
      rw [h4, hfilter]
      rfl
    have hn : (simpleLoop (size_kb * 1024) root fsFail
        (List.range' 1 num) ⟨0, 0⟩ r).files.length = num := by
      rw [herr] at h3
      simpa using h3
    refine ⟨by rw [h1, hn]; simp, ?_⟩
    rw [h2, hn]
    simp

/-- Witness for C6 at the spec's own flat-mode example: 5 files of 10 KB
with no write failures give `total_files = 5` and
`total_size_bytes = 51200`. -/
theorem create_files_simple_stats_witness :
    (create_files_simple "testdir" 5 10 (fun _ => false)
      ⟨fun _ => 0, 0⟩).stats.total_files = 5 ∧
    (create_files_simple "testdir" 5 10 (fun _ => false)
      ⟨fun _ => 0, 0⟩).stats.total_size_bytes = 51200 := by
  have h := create_files_simple_stats "testdir" 5 10 (fun _ => false)
    ⟨fun _ => 0, 0⟩ (by norm_num) (by norm_num)
  have h2 := h.2.2.2 fun _ => rfl
  exact ⟨h2.1, h2.2.trans (by norm_num)⟩

/-! ## C8: structured layout — subdirectory names, file counts, sizes -/

/-- C8.  For positive `M` and `min_size_bytes ≤ K * 1024`, a structured
run creates exactly `N` subdirectories whose names are the deterministic
zero-padded `subdirName` applied to `1..N` (`subdirName 1 = "subdir_001"`
and so on); each subdirectory's drawn file count, `randint 1 M`, lies in
`[1, M]`; every file's drawn size, `randint min max`, lies in
`[min_size_bytes, K * 1024]` and equals the length of the data written;
and the `randint` draw attains every value of its inclusive range (its
uniformity over the range being the contract of `random.randint`). -/
theorem structured_layout (root ft : String) (N M K minSz : ℕ)
    (fsFail : String → Bool) (r : Rng) (hM : 0 < M)
    (hmin : minSz ≤ K * 1024) :
    (create_structured_files root N M K ft minSz fsFail
      r).subdirs.length = N ∧
    (create_structured_files root N M K ft minSz fsFail
      r).subdirs.map SubdirRec.name = (List.range' 1 N).map subdirName ∧
    subdirName 1 = "subdir_001" ∧ subdirName 12 = "subdir_012" ∧
    subdirName 123 = "subdir_123" ∧
    (∀ sd ∈ (create_structured_files root N M K ft minSz fsFail
      r).subdirs, 1 ≤ sd.numFiles ∧ sd.numFiles ≤ M) ∧
    (∀ sd ∈ (create_structured_files root N M K ft minSz fsFail
      r).subdirs, ∀ f ∈ sd.files,
        minSz ≤ f.size ∧ f.size ≤ K * 1024 ∧ f.data.length = f.size) ∧
    (∀ lo hi c : ℕ, lo ≤ c → c ≤ hi →
      ∃ s : Rng, (randint lo hi s).1 = c) := by
  have hnot : ¬ (minSz > K * 1024) := by omega
  refine ⟨?_, ?_, by decide, by decide, by decide, ?_, ?_, ?_⟩
  · simpa [create_structured_files] using
      dirsLoop_subdirs_length (resolveFileType ft) M _ (K * 1024) root
        fsFail (List.range' 1 N) emptyStructuredStats r
  · simp only [create_structured_files]
    exact dirsLoop_subdirs_names _ _ _ _ _ _ _ _ _
  · simp only [create_structured_files]
    exact dirsLoop_numFiles _ _ _ _ _ _ hM _ _ _
  · simp only [create_structured_files, if_neg hnot]
    exact dirsLoop_files _ _ _ _ _ _ hmin _ _ _
  · exact fun lo hi c h1 h2 => randint_attains lo hi c h1 h2

/-- Witness for C8 at the spec's own structured example
(`N = 3`, `M = 4`, `K = 1`, `min = 100`). -/
theorem structured_layout_witness :
    (create_structured_files "testdir" 3 4 1 "bin" 100 (fun _ => false)
      ⟨fun _ => 0, 0⟩).subdirs.length = 3 ∧
    ∀ sd ∈ (create_structured_files "testdir" 3 4 1 "bin" 100
      (fun _ => false) ⟨fun _ => 0, 0⟩).subdirs,
        1 ≤ sd.numFiles ∧ sd.numFiles ≤ 4 := by
  have h := structured_layout "testdir" "bin" 3 4 1 100 (fun _ => false)
    ⟨fun _ => 0, 0⟩ (by norm_num) (by norm_num)
  exact ⟨h.1, h.2.2.2.2.2.1⟩

/-! ## C10: unknown `file_type` strings behave as the mixed policy -/

/-- C10.  Every `file_type` other than `"bin"` and `"txt"` is not
rejected: the type resolution takes the `else` branch (an independent
unbiased coin flip per file, exactly as `"mix"`), and the whole run is
literally the run with `file_type = "mix"`. -/
theorem unknown_file_type_is_mix (root ft : String) (N M K minSz : ℕ)
    (fsFail : String → Bool) (r : Rng) (hbin : ft ≠ "bin")
    (htxt : ft ≠ "txt") :
    (∀ s : Rng, resolveFileType ft s = resolveFileType "mix" s) ∧
    create_structured_files root N M K ft minSz fsFail r =
      create_structured_files root N M K "mix" minSz fsFail r := by
  have hres : resolveFileType ft = resolveFileType "mix" := by
    funext s
    simp only [resolveFileType, if_neg hbin, if_neg htxt]
    rw [if_neg (by decide : ¬ ("mix" : String) = "bin"),
      if_neg (by decide : ¬ ("mix" : String) = "txt")]
  refine ⟨fun s => by rw [hres], ?_⟩
  simp only [create_structured_files]
  rw [hres]

/-- Witness for C10 at the misspelled policy string `"mixed"`. -/
theorem unknown_file_type_is_mix_witness :
    (∀ s : Rng, resolveFileType "mixed" s = resolveFileType "mix" s) ∧
    create_structured_files "testdir" 2 3 1 "mixed" 100 (fun _ => false)
      ⟨fun _ => 0, 0⟩ =
    create_structured_files "testdir" 2 3 1 "mix" 100 (fun _ => false)
      ⟨fun _ => 0, 0⟩ :=
  unknown_file_type_is_mix "testdir" "mixed" 2 3 1 100 (fun _ => false)
    ⟨fun _ => 0, 0⟩ (by decide) (by decide)

/-! ## C7: zero-file statistics reports -/

/-- Counterexample to C7 as stated: the flat-mode reporter
`print_simple_statistics` has no `total_files == 0` early return — on the
all-zero statistics it still produces the full report (`some`, never the
`none` that models the `"No files were generated."` branch). -/
theorem simple_reporter_no_zero_branch :
    print_simple_statistics ⟨0, 0⟩ ≠ none := by
  simp [print_simple_statistics]

/-- C7 (amended: only the structured reporter has the no-files branch; the
flat reporter always prints a full report with its average guarded to 0).
With `total_files = 0` the structured reporter returns the no-files report
and computes nothing; every per-category average (overall, binary, text)
of a produced structured report is 0 when that category's count is zero;
and the flat reporter always produces a report, whose average is 0 when
`total_files = 0` — in both reporters every division is guarded by a
positive-count test. -/
theorem stats_reporter_guards (s : StructuredStats) (t : SimpleStats) :
    (s.total_files = 0 → print_structured_statistics s = none) ∧
    (∀ u, print_structured_statistics s = some u →
      (s.binary_files = 0 → u.avgBinaryKB = 0) ∧
      (s.text_files = 0 → u.avgTextKB = 0) ∧
      0 < s.total_files) ∧
    (print_simple_statistics t).isSome = true ∧
    (∀ v, print_simple_statistics t = some v →
      t.total_files = 0 → v.avgSizeMB = 0) := by
  refine ⟨?_, ?_, ?_, ?_⟩
  · intro h
    simp [print_structured_statistics, h]
  · intro u hu
    by_cases h0 : s.total_files = 0
    · simp [print_structured_statistics, h0] at hu
    · simp only [print_structured_statistics, if_neg h0,
        Option.some.injEq] at hu
      subst hu
      refine ⟨fun hb => ?_, fun ht => ?_, by omega⟩
      · simp [hb]
      · simp [ht]
  · simp [print_simple_statistics]
  · intro v hv h0
    simp only [print_simple_statistics, Option.some.injEq] at hv
    subst hv
    simp [h0]

/-- Witness for C7 (amended) at the all-zero statistics records. -/
theorem stats_reporter_guards_witness :
    print_structured_statistics ⟨0, 0, 0, 0, 0, 0⟩ = none :=
  (stats_reporter_guards ⟨0, 0, 0, 0, 0, 0⟩ ⟨0, 0⟩).1 rfl

/-! ## C9: CLI validation before any filesystem mutation -/

/-- Counterexample to C9 as stated: with simple mode selected
(`--file-create 5 10`) and the unused structured count `-n` set to the
non-positive integer `-3`, `main` performs no usage error — it runs
simple mode.  The claim's "any count or size argument" fails for
arguments the selected mode ignores. -/
theorem simple_mode_skips_structured_validation :
    mainValidate ⟨"testdir", some (5, 10), some (-3), none, none, none,
      false⟩ = MainAction.runSimple "testdir" 5 10 false ∧
    (∀ msg, mainValidate ⟨"testdir", some (5, 10), some (-3), none, none,
      none, false⟩ ≠ MainAction.usageError msg) ∧
    (-3 : Int) ≤ 0 := by
  have heval : mainValidate ⟨"testdir", some (5, 10), some (-3), none,
      none, none, false⟩ = MainAction.runSimple "testdir" 5 10 false := rfl
  refine ⟨heval, ?_, by norm_num⟩
  intro msg h
  rw [heval] at h
  exact MainAction.noConfusion h

/-- C9 (amended: restricted to the count/size arguments consumed by the
selected mode).  If simple mode is selected and either of its two integers
is non-positive, `main` reports a usage error; if flat mode is not
selected and any of `-n`, `-m`, `-k` is missing, or all are present and
any is non-positive, `main` reports a usage error; and a usage error
reaches no generator: the run writes no file and creates no
directory. -/
theorem main_validation (a : ParsedArgs) :
    (∀ nf mkb : Int, a.file_create = some (nf, mkb) →
      (nf ≤ 0 ∨ mkb ≤ 0) →
      ∃ msg, mainValidate a = MainAction.usageError msg) ∧
    (a.file_create = none →
      (a.n = none ∨ a.max_files = none ∨ a.max_size_kb = none) →
      ∃ msg, mainValidate a = MainAction.usageError msg) ∧
    (∀ n m k : Int, a.file_create = none → a.n = some n →
      a.max_files = some m → a.max_size_kb = some k →
      (n ≤ 0 ∨ m ≤ 0 ∨ k ≤ 0) →
      ∃ msg, mainValidate a = MainAction.usageError msg) ∧
    (∀ (fsFail : String → Bool) (r : Rng) (msg : String),
      mainValidate a = MainAction.usageError msg →
      (mainRun a fsFail r).filesWritten = [] ∧
      (mainRun a fsFail r).dirsCreated = []) := by
  refine ⟨?_, ?_, ?_, ?_⟩
  · intro nf mkb hfc hneg
    refine ⟨"For --file-create, both N and M must be greater than 0.", ?_⟩
    simp [mainValidate, hfc, if_pos hneg]
  · intro hfc hmissing
    rcases hn : a.n with _ | n
    · exact ⟨"When --file-create is not used, -n, -m, and -k are required.",
        by simp [mainValidate, hfc, hn]⟩
    rcases hm : a.max_files with _ | m
    · exact ⟨"When --file-create is not used, -n, -m, and -k are required.",
        by simp [mainValidate, hfc, hn, hm]⟩
    rcases hk : a.max_size_kb with _ | k
    · exact ⟨"When --file-create is not used, -n, -m, and -k are required.",
        by simp [mainValidate, hfc, hn, hm, hk]⟩
    · rw [hn, hm, hk] at hmissing
      rcases hmissing with h | h | h <;> exact absurd h (by simp)
  · intro n m k hfc hn hm hk hneg
    rcases hneg with h | h | h
    · exact ⟨"-n must be an integer greater than 0.",
        by simp [mainValidate, hfc, hn, hm, hk, if_pos h]⟩
    · by_cases h1 : n ≤ 0
      · exact ⟨"-n must be an integer greater than 0.",
          by simp [mainValidate, hfc, hn, hm, hk, if_pos h1]⟩
      · exact ⟨"-m must be an integer greater than 0.",
          by simp [mainValidate, hfc, hn, hm, hk, if_neg h1, if_pos h]⟩
    · by_cases h1 : n ≤ 0
      · exact ⟨"-n must be an integer greater than 0.",
          by simp [mainValidate, hfc, hn, hm, hk, if_pos h1]⟩
      by_cases h2 : m ≤ 0
      · exact ⟨"-m must be an integer greater than 0.",
          by simp [mainValidate, hfc, hn, hm, hk, if_neg h1, if_pos h2]⟩
      · exact ⟨"-k must be an integer greater than 0.",
          by simp [mainValidate, hfc, hn, hm, hk, if_neg h1, if_neg h2,
            if_pos h]⟩
  · intro fsFail r msg husage
    simp [mainRun, husage, MainOutcome.filesWritten,
      MainOutcome.dirsCreated]

/-- Witness for C9 (amended): structured mode with `-m` missing is a usage
error, and that run writes no files and creates no directories. -/
theorem main_validation_witness :
    (∃ msg, mainValidate ⟨"testdir", none, some 3, none, some 2, none,
      false⟩ = MainAction.usageError msg) ∧
    (mainRun ⟨"testdir", none, some 3, none, some 2, none, false⟩
      (fun _ => false) ⟨fun _ => 0, 0⟩).filesWritten = [] ∧
    (mainRun ⟨"testdir", none, some 3, none, some 2, none, false⟩
      (fun _ => false) ⟨fun _ => 0, 0⟩).dirsCreated = [] := by
  have h := main_validation ⟨"testdir", none, some 3, none, some 2, none,
    false⟩
  have hu := h.2.1 rfl (Or.inr (Or.inl rfl))
  obtain ⟨msg, hmsg⟩ := hu
  exact ⟨⟨msg, hmsg⟩, h.2.2.2 (fun _ => false) ⟨fun _ => 0, 0⟩ msg hmsg⟩

end Genfiles
